import Mathlib

/-!
# Verification of `postgres.py` (gittip/postgres-python)

A shallow embedding, in Lean 4, of the single-module library `src/postgres.py`:
a resource-management layer over psycopg2 with a bounded connection pool and
three scoped context managers (`get_cursor`, `get_transaction`,
`get_connection`).

Strings are modelled on `List Char` (via `String.data`) so that every
definition reduces in the kernel.  External collaborators (psycopg2 and the
Python 2 `urlparse` module) are modelled at the granularity the library
observes: `urlparse` by its netloc/path split and the `username` / `password` /
`hostname` / `port` accessors, psycopg2 connections by an explicit state
record (`St`) plus an event trace recording every driver call a manager issues
(`getconn`, `putconn`, `execute`, `commit`, `rollback`, autocommit writes,
cursor creation).  Python control flow on exceptions — a raising call aborts
the rest of the function body — is modelled explicitly: each driver call that
the analysed claims allow to fail takes a boolean fault flag, and the scope
functions thread the abort.
-/

/-! ## Character-list string helpers (kernel-reducible) -/

/-- Split a character list at the first occurrence of `c`; `none` when `c`
does not occur.  Mirrors Python's `s.split(c, 1)`. -/
def splitAtFirst (c : Char) : List Char → Option (List Char × List Char)
  | [] => none
  | x :: xs =>
    if x = c then some ([], xs)
    else (splitAtFirst c xs).map (fun p => (x :: p.1, p.2))

/-- Split a character list at the last occurrence of `c`; `none` when `c`
does not occur.  Mirrors Python's `s.rsplit(c, 1)`. -/
def splitAtLast (c : Char) (l : List Char) : Option (List Char × List Char) :=
  (splitAtFirst c l.reverse).map (fun p => (p.2.reverse, p.1.reverse))

/-- `startsWithList s pre` is Python's `s.startswith(pre)`. -/
def startsWithList : List Char → List Char → Bool
  | _, [] => true
  | [], _ :: _ => false
  | a :: as, b :: bs => a = b && startsWithList as bs

/-- `strStartswith s pre` is Python's `s.startswith(pre)` on `String`s. -/
def strStartswith (s pre : String) : Bool :=
  startsWithList s.data pre.data

/-- Numeric value of a digit string (used for `int(port, 10)`). -/
def natOfDigits (l : List Char) : Nat :=
  l.foldl (fun n c => n * 10 + (c.toNat - '0'.toNat)) 0

/-! ## The `urlparse` collaborator

`postgres.py` registers `postgres` in `urlparse.uses_netloc` and then reads
`parsed.path`, `parsed.username`, `parsed.password`, `parsed.hostname` and
`parsed.port`.  The definitions below model CPython 2.7's `urlparse` for a
URL whose scheme is registered in `uses_netloc`: the netloc is the text
between `//` and the next `/`, `?` or `#`; the four accessors are derived
from the netloc by the same one-split decompositions CPython uses. -/

/-- The part of a parse result `postgres.py` reads: `netloc` and `path`. -/
structure UrlParsed where
  netloc : List Char
  path : List Char
  deriving DecidableEq

/-- Modelled from CPython 2.7 `urlparse.urlparse` restricted to the shapes
this library feeds it (`uses_netloc` contains the scheme).  A URL without a
`:` has no scheme and is all path; after `scheme:`, a `//` introduces the
netloc, which extends to the next `/`, `?` or `#`. -/
def urlparse (url : List Char) : UrlParsed :=
  match splitAtFirst ':' url with
  | none => ⟨[], url⟩
  | some (_, rest) =>
    if startsWithList rest ['/', '/'] then
      let rest := rest.drop 2
      let netloc := rest.takeWhile (fun c => ¬(c = '/' ∨ c = '?' ∨ c = '#'))
      let path := (rest.drop netloc.length).takeWhile (fun c => ¬(c = '?' ∨ c = '#'))
      ⟨netloc, path⟩
    else ⟨[], rest⟩

/-- CPython 2.7 `ParseResult.username`: when the netloc has an `@`, the part
of the userinfo before the first `:`; otherwise `None`. -/
def pyUsername (netloc : List Char) : Option (List Char) :=
  match splitAtLast '@' netloc with
  | none => none
  | some (userinfo, _) =>
    match splitAtFirst ':' userinfo with
    | none => some userinfo
    | some (u, _) => some u

/-- CPython 2.7 `ParseResult.password`: when the netloc has an `@` and the
userinfo a `:`, the part after that `:`; otherwise `None`. -/
def pyPassword (netloc : List Char) : Option (List Char) :=
  match splitAtLast '@' netloc with
  | none => none
  | some (userinfo, _) =>
    match splitAtFirst ':' userinfo with
    | none => none
    | some (_, p) => some p

/-- CPython 2.7 `ParseResult.hostname`: the hostinfo (netloc after the last
`@`) up to the first `:`, lower-cased; `None` when empty. -/
def pyHostname (netloc : List Char) : Option (List Char) :=
  let hostinfo := match splitAtLast '@' netloc with
    | none => netloc
    | some (_, h) => h
  let host := match splitAtFirst ':' hostinfo with
    | none => hostinfo
    | some (h, _) => h
  let host := host.map Char.toLower
  if host = [] then none else some host

/-- Python runtime errors this layer can raise.  `unboundLocal` models
`UnboundLocalError` (reading a local assigned on no executed path);
`valueError` models the `ValueError` that `int(s, 10)` raises on a
non-numeric literal, carrying the offending text. -/
inductive PyError
  | unboundLocal (name : String)
  | valueError (literal : String)
  deriving DecidableEq

/-- CPython 2.7 `ParseResult.port`: the hostinfo part after the first `:`,
read with `int(port, 10)`; `None` when there is no `:`.  `int` raises
`ValueError` when the text after the `:` is empty or not a plain decimal
numeral (a sign or surrounding whitespace, which `int` would tolerate, is
not meaningful in a URL port and is treated as non-numeric here). -/
def pyPort (netloc : List Char) : Except PyError (Option Nat) :=
  let hostinfo := match splitAtLast '@' netloc with
    | none => netloc
    | some (_, h) => h
  match splitAtFirst ':' hostinfo with
  | none => Except.ok none
  | some (_, p) =>
    if p ≠ [] ∧ p.all Char.isDigit then Except.ok (some (natOfDigits p))
    else Except.error (PyError.valueError (String.mk p))

/-! ## `url_to_dsn` -/

/-- Python's `"%s" % x` where `x` is a string or `None`: `None` prints as the
four characters `None`. -/
def pyFormatOpt : Option (List Char) → List Char
  | none => "None".data
  | some s => s

/-- `url_to_dsn` from `src/postgres.py`:
`dbname` is `parsed.path[1:]`, user/password/host come from the accessors,
reading `parsed.port` raises `ValueError` out of `url_to_dsn` when the URL's
port is not numeric, a missing port defaults to the string `'5432'`, and the
five values are interpolated with `%s` into
`"dbname=%s user=%s password=%s host=%s port=%s"`. -/
def url_to_dsn (url : String) : Except PyError String :=
  let parsed := urlparse url.data
  let dbname := parsed.path.drop 1
  let user := pyUsername parsed.netloc
  let password := pyPassword parsed.netloc
  let host := pyHostname parsed.netloc
  match pyPort parsed.netloc with
  | Except.error e => Except.error e
  | Except.ok portOpt =>
    let port : List Char := match portOpt with
      | none => "5432".data
      | some n => (toString n).data
    Except.ok (String.mk ("dbname=".data ++ dbname ++ " user=".data
      ++ pyFormatOpt user ++ " password=".data ++ pyFormatOpt password
      ++ " host=".data ++ pyFormatOpt host ++ " port=".data ++ port))

/-! ## `Postgres.__init__` -/

/-- The arguments `Postgres.__init__` hands to
`ThreadedConnectionPool(minconn, maxconn, dsn, connection_factory)`. -/
structure PoolConfig where
  minconn : Nat
  maxconn : Nat
  dsn : String
  deriving DecidableEq

/-- `Postgres.__init__` from `src/postgres.py`: translate the URL when it
starts with `postgres://` (propagating the `ValueError` `url_to_dsn` raises
on a malformed port), then build the pool.  No other branch assigns `dsn`,
so every other input fails with `UnboundLocalError` at the `dsn=dsn`
argument; no validation of the URL contents or of `minconn`/`maxconn`
happens anywhere. -/
def Postgres.init (url : String) (minconn maxconn : Nat) :
    Except PyError PoolConfig :=
  if strStartswith url "postgres://" then
    match url_to_dsn url with
    | Except.error e => Except.error e
    | Except.ok dsn => Except.ok ⟨minconn, maxconn, dsn⟩
  else
    Except.error (PyError.unboundLocal "dsn")

/-! ## Driver-call events and connection/pool state

One connection suffices to settle the analysed claims: every scope checks
out one connection, works on it, and (should) return it.  `St` carries the
connection's observable state plus the trace of driver calls issued so far,
in order.  A raising driver call is still recorded in the trace (the call
was issued) but its state effect does not happen and the rest of the Python
function body is skipped. -/

/-- One driver call issued by the library. -/
inductive Ev
  | getconn
  | putconn
  | newCursor
  | exec (q : String)
  | commit
  | rollback
  | setAuto (b : Bool)
  deriving DecidableEq

/-- Observable state of the pooled connection plus the call trace. -/
structure St where
  inPool : Bool
  autocommit : Bool
  txnOpen : Bool
  trace : List Ev
  deriving DecidableEq

/-- The at-rest state: connection available in the pool, autocommit on
(as `PostgresConnection.__init__` leaves it), no open transaction. -/
def st0 : St := ⟨true, true, false, []⟩

/-- `pool.getconn()`: the connection leaves the available set. -/
def getconn (s : St) : St :=
  { s with inPool := false, trace := s.trace ++ [Ev.getconn] }

/-- `pool.putconn(conn)`: the connection re-enters the available set. -/
def putconn (s : St) : St :=
  { s with inPool := true, trace := s.trace ++ [Ev.putconn] }

/-- `conn.autocommit = b`. -/
def setAutocommit (b : Bool) (s : St) : St :=
  { s with autocommit := b, trace := s.trace ++ [Ev.setAuto b] }

/-- `conn.cursor()` (cursor creation issues no statement). -/
def newCursor (s : St) : St :=
  { s with trace := s.trace ++ [Ev.newCursor] }

/-- `conn.commit()` succeeding: the open transaction is closed. -/
def commitConn (s : St) : St :=
  { s with txnOpen := false, trace := s.trace ++ [Ev.commit] }

/-- `conn.rollback()` succeeding: the open transaction is closed. -/
def rollbackConn (s : St) : St :=
  { s with txnOpen := false, trace := s.trace ++ [Ev.rollback] }

/-- `cursor.execute(q)` succeeding: with autocommit on the statement is its
own committed transaction; with autocommit off it opens (or continues) a
transaction on the connection. -/
def execStmt (q : String) (s : St) : St :=
  { s with txnOpen := if s.autocommit then s.txnOpen else true,
           trace := s.trace ++ [Ev.exec q] }

/-- A caller body running a sequence of statements on the scope's cursor or
connection (the statements that got to run before any body failure). -/
def execList : List String → St → St
  | [], s => s
  | q :: qs, s => execList qs (execStmt q s)

/-! ### Trace-counting helpers (structural, so they reduce on open terms) -/

/-- Number of `getconn` events in a trace. -/
def countGet : List Ev → Nat
  | [] => 0
  | Ev.getconn :: t => countGet t + 1
  | _ :: t => countGet t

/-- Number of `putconn` events in a trace. -/
def countPut : List Ev → Nat
  | [] => 0
  | Ev.putconn :: t => countPut t + 1
  | _ :: t => countPut t

/-- Number of `commit` events in a trace. -/
def countCommit : List Ev → Nat
  | [] => 0
  | Ev.commit :: t => countCommit t + 1
  | _ :: t => countCommit t

/-- Number of `rollback` events in a trace. -/
def countRollback : List Ev → Nat
  | [] => 0
  | Ev.rollback :: t => countRollback t + 1
  | _ :: t => countRollback t

/-! ## `PostgresCursorContextManager` (`get_cursor`; used by `execute`,
`fetchone`, `fetchall`)

`__enter__` checks a connection out, creates a cursor and executes the
statement; if `execute` raises, it calls `self.__exit__()` itself and
re-raises, because the `with` statement never calls `__exit__` when
`__enter__` raises.  `__exit__` only returns the connection.  The boolean
result of each scope function is Python's "an exception is propagating". -/

/-- `PostgresCursorContextManager.__exit__`: `self.pool.putconn(self.conn)`. -/
def PostgresCursorContextManager.exit (s : St) : St :=
  putconn s

/-- `PostgresCursorContextManager.__enter__` with fault flag `execFails` for
`cursor.execute(*self.a, **self.kw)`.  Returns the state and whether the
call raised. -/
def PostgresCursorContextManager.enter (q : String) (execFails : Bool)
    (s : St) : St × Bool :=
  let s := getconn s
  let s := newCursor s
  if execFails then
    -- except: self.__exit__(); raise
    let s := { s with trace := s.trace ++ [Ev.exec q] }
    (PostgresCursorContextManager.exit s, true)
  else
    (execStmt q s, false)

/-- A full `with db.get_cursor(q) as cursor:` scope.  `bodyFails` is whether
the managed block raises; either way the `with` statement runs `__exit__`
once the block was entered. -/
def PostgresCursorContextManager.run (q : String) (execFails bodyFails : Bool)
    (s : St) : St × Bool :=
  match PostgresCursorContextManager.enter q execFails s with
  | (s, true) => (s, true)
  | (s, false) =>
    let s := PostgresCursorContextManager.exit s
    (s, bodyFails)

/-! ## `PostgresTransactionContextManager` (`get_transaction`)

`__init__(self, pool, *a, **kw)` stores only `pool` and `conn = None`: the
statement and parameters passed to `get_transaction` are dropped on the
floor.  `__enter__` checks a connection out, turns autocommit off and
returns `self.conn.cursor(*a, **kw)` — with `__enter__`'s own (always
empty) arguments, and with no `execute` call.  `__exit__` commits on a
clean exit, rolls back otherwise, restores autocommit and returns the
connection; nothing guards `commit`/`rollback`, so when that call raises
the two following lines never run. -/

/-- What a `PostgresTransactionContextManager` stores: whether `self.conn`
is set.  `*a` and `**kw` have no corresponding field — `__init__` discards
them. -/
structure PostgresTransactionContextManager where
  connAcquired : Bool
  deriving DecidableEq

/-- `PostgresTransactionContextManager.__init__(pool, *a, **kw)`: only
`self.pool` and `self.conn = None` are assigned; `a` (the statement and
parameters from `get_transaction`) is not stored. -/
def PostgresTransactionContextManager.init (a : List String) :
    PostgresTransactionContextManager :=
  ⟨false⟩

/-- `PostgresTransactionContextManager.__enter__`: `getconn`, turn
autocommit off, create and return a cursor.  No statement is executed. -/
def PostgresTransactionContextManager.enter (s : St) : St :=
  newCursor (setAutocommit false (getconn s))

/-- `PostgresTransactionContextManager.__exit__` with `clean` = the block
exited without exception, and fault flags for `conn.commit()` /
`conn.rollback()`.  Returns the state and whether `__exit__` itself
raised. -/
def PostgresTransactionContextManager.exit
    (clean commitFails rollbackFails : Bool) (s : St) : St × Bool :=
  if clean then
    if commitFails then
      ({ s with trace := s.trace ++ [Ev.commit] }, true)
    else
      (putconn (setAutocommit true (commitConn s)), false)
  else
    if rollbackFails then
      ({ s with trace := s.trace ++ [Ev.rollback] }, true)
    else
      (putconn (setAutocommit true (rollbackConn s)), false)

/-- A full `with db.get_transaction(q) as cursor:` scope: `q` reaches
`__init__` (which discards it), the body runs `stmts` on the returned
cursor and then possibly raises (`bodyFails`), and `__exit__` runs with the
corresponding `clean` flag.  The scope propagates an exception iff the body
raised or `__exit__` raised. -/
def PostgresTransactionContextManager.run (q : String) (stmts : List String)
    (bodyFails commitFails rollbackFails : Bool) (s : St) : St × Bool :=
  let _mgr := PostgresTransactionContextManager.init [q]
  let s := PostgresTransactionContextManager.enter s
  let s := execList stmts s
  match PostgresTransactionContextManager.exit (!bodyFails) commitFails rollbackFails s with
  | (s, exitRaised) => (s, bodyFails || exitRaised)

/-! ## `PostgresConnectionContextManager` (`get_connection`)

`__enter__` checks a connection out, turns autocommit off and returns the
raw connection.  `__exit__` always rolls back, restores autocommit and
returns the connection — there is no `commit` call anywhere in the class. -/

/-- `PostgresConnectionContextManager.__enter__`. -/
def PostgresConnectionContextManager.enter (s : St) : St :=
  setAutocommit false (getconn s)

/-- `PostgresConnectionContextManager.__exit__` with a fault flag for
`conn.rollback()`. -/
def PostgresConnectionContextManager.exit (rollbackFails : Bool) (s : St) :
    St × Bool :=
  if rollbackFails then
    ({ s with trace := s.trace ++ [Ev.rollback] }, true)
  else
    (putconn (setAutocommit true (rollbackConn s)), false)

/-- A full `with db.get_connection() as conn:` scope; the body runs `stmts`
on the raw connection and possibly raises. -/
def PostgresConnectionContextManager.run (stmts : List String)
    (bodyFails rollbackFails : Bool) (s : St) : St × Bool :=
  let s := PostgresConnectionContextManager.enter s
  let s := execList stmts s
  match PostgresConnectionContextManager.exit rollbackFails s with
  | (s, exitRaised) => (s, bodyFails || exitRaised)

/-! ## `Postgres.fetchall` as a generator

`fetchall` is a Python generator function:

    with self.get_cursor(*a, **kw) as cursor:
        for row in cursor:
            yield row

No code runs at the call; the first `next()` enters the `with` block (checks
a connection out and executes the statement) and yields the first row; the
`next()` that finds the cursor exhausted leaves the `with` block (returning
the connection) and raises `StopIteration`; every later `next()` raises
`StopIteration` with no further effect.  Closing the generator mid-iteration
(scope exit / garbage collection) also leaves the `with` block.  A result
row of the RealDictCursor is an ordered mapping column → value. -/

/-- One result row: an ordered mapping from column name to value. -/
def Row : Type := List (String × String)

instance : DecidableEq Row := by
  unfold Row
  infer_instance

/-- Phase of the `fetchall` generator: not yet advanced (holding the rows
the statement will produce), mid-iteration, or exhausted/closed. -/
inductive FetchallPhase
  | notStarted (q : String) (rows : List Row)
  | active (remaining : List Row)
  | finished
  deriving DecidableEq

/-- A `fetchall` generator paired with the connection/pool state. -/
structure FetchallGen where
  phase : FetchallPhase
  st : St
  deriving DecidableEq

/-- `db.fetchall(q)` where the statement's result rows are `rows`: calling a
generator function runs none of its body. -/
def Postgres.fetchall (q : String) (rows : List Row) (s : St) : FetchallGen :=
  ⟨FetchallPhase.notStarted q rows, s⟩

/-- One `next()` on the generator: `none` models `StopIteration`. -/
def FetchallGen.next : FetchallGen → Option Row × FetchallGen
  | ⟨FetchallPhase.notStarted q rows, s⟩ =>
    -- first advance: enter the with block (execute succeeds — rows exist),
    -- then take the for-loop's first step
    let (s, _) := PostgresCursorContextManager.enter q false s
    (match rows with
     | [] => (none, ⟨FetchallPhase.finished, PostgresCursorContextManager.exit s⟩)
     | r :: rest => (some r, ⟨FetchallPhase.active rest, s⟩))
  | ⟨FetchallPhase.active [], s⟩ =>
    (none, ⟨FetchallPhase.finished, PostgresCursorContextManager.exit s⟩)
  | ⟨FetchallPhase.active (r :: rest), s⟩ =>
    (some r, ⟨FetchallPhase.active rest, s⟩)
  | ⟨FetchallPhase.finished, s⟩ =>
    (none, ⟨FetchallPhase.finished, s⟩)

/-- `generator.close()` (runs on scope exit / reclamation): mid-iteration it
unwinds the `with` block, returning the connection; before the first
`next()` no generator code has run, so nothing happens; after exhaustion
nothing happens. -/
def FetchallGen.close : FetchallGen → FetchallGen
  | ⟨FetchallPhase.notStarted _ _, s⟩ => ⟨FetchallPhase.finished, s⟩
  | ⟨FetchallPhase.active _, s⟩ =>
    ⟨FetchallPhase.finished, PostgresCursorContextManager.exit s⟩
  | ⟨FetchallPhase.finished, s⟩ => ⟨FetchallPhase.finished, s⟩

/-- Iterate the generator at most `fuel` times, collecting yielded rows in
order (a `list(gen)` bounded by `fuel`). -/
def FetchallGen.drain : Nat → FetchallGen → List Row × FetchallGen
  | 0, g => ([], g)
  | fuel + 1, g =>
    match FetchallGen.next g with
    | (none, g) => ([], g)
    | (some r, g) =>
      match FetchallGen.drain fuel g with
      | (rs, g) => (r :: rs, g)

/-! ## `PostgresConnection.cursor`

`PostgresConnection.cursor(self, *a, **kw)` inserts
`kw['cursor_factory'] = RealDictCursor` only when the key is absent, then
delegates to `psycopg2.extensions.connection.cursor`, which uses the
`cursor_factory` keyword it receives. -/

/-- A psycopg2 cursor factory, identified by name; `RealDictCursor` is the
one `postgres.py` imports. -/
inductive CursorFactory
  | RealDictCursor
  | factoryNamed (name : String)
  deriving DecidableEq

/-- `psycopg2.extensions.connection.cursor(**kw)` as observed through the
factory it instantiates: the `cursor_factory` keyword when present, the
driver's plain default otherwise. -/
def psycopg2CursorBase (kw : List (String × CursorFactory)) : CursorFactory :=
  match kw.lookup "cursor_factory" with
  | some f => f
  | none => CursorFactory.factoryNamed "psycopg2.extensions.cursor"

/-- `PostgresConnection.cursor` from `src/postgres.py`. -/
def PostgresConnection.cursor (kw : List (String × CursorFactory)) :
    CursorFactory :=
  let kw := match kw.lookup "cursor_factory" with
    | some _ => kw
    | none => kw ++ [("cursor_factory", CursorFactory.RealDictCursor)]
  psycopg2CursorBase kw

/-- Number of `exec` events in a trace. -/
def countExec : List Ev → Nat
  | [] => 0
  | Ev.exec _ :: t => countExec t + 1
  | _ :: t => countExec t

/-! ## Helper lemmas -/

theorem execList_inPool (qs : List String) (s : St) :
    (execList qs s).inPool = s.inPool := by
  induction qs generalizing s with
  | nil => rfl
  | cons q qs ih => simp [execList, execStmt, ih]

theorem execList_autocommit (qs : List String) (s : St) :
    (execList qs s).autocommit = s.autocommit := by
  induction qs generalizing s with
  | nil => rfl
  | cons q qs ih => simp [execList, execStmt, ih]

theorem execList_trace (qs : List String) (s : St) :
    (execList qs s).trace = s.trace ++ qs.map Ev.exec := by
  induction qs generalizing s with
  | nil => simp [execList]
  | cons q qs ih => simp [execList, execStmt, ih]

theorem countCommit_append (a b : List Ev) :
    countCommit (a ++ b) = countCommit a + countCommit b := by
  induction a with
  | nil => simp [countCommit]
  | cons x t ih => cases x <;> simp [countCommit, ih] <;> omega

theorem countCommit_map_exec (qs : List String) :
    countCommit (qs.map Ev.exec) = 0 := by
  induction qs with
  | nil => rfl
  | cons q qs ih => simp [countCommit, ih]

theorem countPut_append (a b : List Ev) :
    countPut (a ++ b) = countPut a + countPut b := by
  induction a with
  | nil => simp [countPut]
  | cons x t ih => cases x <;> simp [countPut, ih] <;> omega

theorem countPut_map_exec (qs : List String) :
    countPut (qs.map Ev.exec) = 0 := by
  induction qs with
  | nil => rfl
  | cons q qs ih => simp [countPut, ih]

theorem lookup_append_right {β : Type} (l : List (String × β)) (k : String)
    (v : β) (h : List.lookup k l = none) :
    List.lookup k (l ++ [(k, v)]) = some v := by
  induction l with
  | nil => simp [List.lookup]
  | cons p t ih =>
    rw [List.cons_append]
    rw [List.lookup] at h ⊢
    cases hb : (k == p.1) with
    | true => rw [hb] at h; exact Option.noConfusion h
    | false => rw [hb] at h; exact ih h

/-! ## Claim theorems -/

/-- Claim C1: for every statement whose execution inside the scoped cursor
manager fails — and on every successful path too — the checked-out
connection is returned to the pool exactly once (one `getconn`, one
`putconn`), and on a statement failure the `putconn` is issued before the
exception propagates to the caller: the whole trace, ending in `putconn`,
is emitted before `run` reports the raise.  `execute`, `fetchone` and
`fetchall` all run through this same manager (`bodyFails` covers their
block bodies). -/
theorem get_cursor_releases_exactly_once_even_on_failure
    (q : String) (execFails bodyFails : Bool) (s : St) (h : s.trace = []) :
    (PostgresCursorContextManager.run q execFails bodyFails s).1.trace
      = [Ev.getconn, Ev.newCursor, Ev.exec q, Ev.putconn] ∧
    countGet (PostgresCursorContextManager.run q execFails bodyFails s).1.trace = 1 ∧
    countPut (PostgresCursorContextManager.run q execFails bodyFails s).1.trace = 1 ∧
    (PostgresCursorContextManager.run q execFails bodyFails s).1.inPool = true ∧
    (PostgresCursorContextManager.run q execFails bodyFails s).2
      = (execFails || bodyFails) := by
  cases execFails <;> cases bodyFails <;>
    simp [PostgresCursorContextManager.run, PostgresCursorContextManager.enter,
      PostgresCursorContextManager.exit, getconn, putconn, newCursor, execStmt,
      countGet, countPut, h]

/-- Instantiation of C1's theorem at a concrete failing execution from the
at-rest state. -/
theorem get_cursor_releases_exactly_once_even_on_failure_checked :
    (PostgresCursorContextManager.run "SELECT * FROM foo" true false st0).1.trace
      = [Ev.getconn, Ev.newCursor, Ev.exec "SELECT * FROM foo", Ev.putconn] ∧
    countGet (PostgresCursorContextManager.run "SELECT * FROM foo" true false st0).1.trace = 1 ∧
    countPut (PostgresCursorContextManager.run "SELECT * FROM foo" true false st0).1.trace = 1 ∧
    (PostgresCursorContextManager.run "SELECT * FROM foo" true false st0).1.inPool = true ∧
    (PostgresCursorContextManager.run "SELECT * FROM foo" true false st0).2
      = (true || false) :=
  get_cursor_releases_exactly_once_even_on_failure "SELECT * FROM foo" true false st0 rfl

/-- Claim C2: a `get_transaction` scope whose managed block ran `stmts` and
then exited cleanly commits; one that exited via failure rolls back; in both
cases autocommit is set back to `true` and only then is the connection
released — the trace ends `commit`/`rollback`, then `setAuto true`, then
`putconn`, and the final state has autocommit on, the connection in the
pool and no open transaction.  The `commitFails`/`rollbackFails` fault
flags are `false` here: the exit-step calls themselves succeed (the case
where they raise is settled under claim C3). -/
theorem get_transaction_commit_rollback_restore_release
    (q : String) (stmts : List String) (bodyFails : Bool) (s : St)
    (h : s.trace = []) :
    (PostgresTransactionContextManager.run q stmts bodyFails false false s).1.trace
      = [Ev.getconn, Ev.setAuto false, Ev.newCursor] ++ stmts.map Ev.exec
        ++ [(if bodyFails then Ev.rollback else Ev.commit), Ev.setAuto true, Ev.putconn] ∧
    (PostgresTransactionContextManager.run q stmts bodyFails false false s).1.autocommit
      = true ∧
    (PostgresTransactionContextManager.run q stmts bodyFails false false s).1.inPool
      = true ∧
    (PostgresTransactionContextManager.run q stmts bodyFails false false s).1.txnOpen
      = false ∧
    (PostgresTransactionContextManager.run q stmts bodyFails false false s).2
      = bodyFails := by
  cases bodyFails <;>
    simp [PostgresTransactionContextManager.run,
      PostgresTransactionContextManager.enter,
      PostgresTransactionContextManager.exit,
      PostgresTransactionContextManager.init,
      execList_trace, getconn, putconn, newCursor, setAutocommit,
      commitConn, rollbackConn, h]

/-- Instantiation of C2's theorem: one statement in the block, clean exit
and failing exit, from the at-rest state. -/
theorem get_transaction_commit_rollback_restore_release_checked :
    (PostgresTransactionContextManager.run "q" ["INSERT INTO foo VALUES ('baz')"] false false false st0).1.trace
      = [Ev.getconn, Ev.setAuto false, Ev.newCursor]
        ++ [Ev.exec "INSERT INTO foo VALUES ('baz')"]
        ++ [Ev.commit, Ev.setAuto true, Ev.putconn] ∧
    (PostgresTransactionContextManager.run "q" ["INSERT INTO foo VALUES ('baz')"] false false false st0).1.autocommit
      = true ∧
    (PostgresTransactionContextManager.run "q" ["INSERT INTO foo VALUES ('baz')"] false false false st0).1.inPool
      = true ∧
    (PostgresTransactionContextManager.run "q" ["INSERT INTO foo VALUES ('baz')"] false false false st0).1.txnOpen
      = false ∧
    (PostgresTransactionContextManager.run "q" ["INSERT INTO foo VALUES ('baz')"] false false false st0).2
      = false :=
  get_transaction_commit_rollback_restore_release "q"
    ["INSERT INTO foo VALUES ('baz')"] false st0 rfl

/-- Counterexample to claim C3 as stated: in a `get_transaction` scope whose
block ran one insert and exited cleanly, if the exit-path `conn.commit()`
call itself raises, then `autocommit = True` and `putconn` never run — the
scope exits via the propagating exception with autocommit still off, the
transaction still open, and the connection not returned to the pool. -/
theorem commit_failure_leaves_connection_unreturned :
    (PostgresTransactionContextManager.run "q" ["INSERT INTO foo VALUES ('baz')"] false true false st0).1.inPool
      = false ∧
    (PostgresTransactionContextManager.run "q" ["INSERT INTO foo VALUES ('baz')"] false true false st0).1.autocommit
      = false ∧
    (PostgresTransactionContextManager.run "q" ["INSERT INTO foo VALUES ('baz')"] false true false st0).1.txnOpen
      = true ∧
    (PostgresTransactionContextManager.run "q" ["INSERT INTO foo VALUES ('baz')"] false true false st0).2
      = true ∧
    countPut (PostgresTransactionContextManager.run "q" ["INSERT INTO foo VALUES ('baz')"] false true false st0).1.trace
      = 0 := by
  decide

/-- Claim C3 amended: after any scope of the three managers exits — by
success or failure of the managed block, and for `get_cursor` also on a
failing statement execution — the connection's autocommit flag is `true`
and the connection is back in the pool, **provided the exit-path
`commit`/`rollback` call itself succeeds** (for `get_cursor`, which never
issues either, unconditionally).  When `commit` or `rollback` raises, the
restore and the release are skipped (see the counterexample).  The
`hauto` hypothesis is the pool's at-rest invariant: the cursor manager
never writes the flag, so it ends `true` only because it started `true`. -/
theorem scope_exit_restores_autocommit_and_releases
    (q : String) (stmts : List String) (execFails bodyFails : Bool) (s : St)
    (hauto : s.autocommit = true) :
    ((PostgresCursorContextManager.run q execFails bodyFails s).1.autocommit = true ∧
     (PostgresCursorContextManager.run q execFails bodyFails s).1.inPool = true) ∧
    ((PostgresTransactionContextManager.run q stmts bodyFails false false s).1.autocommit = true ∧
     (PostgresTransactionContextManager.run q stmts bodyFails false false s).1.inPool = true) ∧
    ((PostgresConnectionContextManager.run stmts bodyFails false s).1.autocommit = true ∧
     (PostgresConnectionContextManager.run stmts bodyFails false s).1.inPool = true) := by
  cases execFails <;> cases bodyFails <;>
    simp [PostgresCursorContextManager.run, PostgresCursorContextManager.enter,
      PostgresCursorContextManager.exit,
      PostgresTransactionContextManager.run,
      PostgresTransactionContextManager.enter,
      PostgresTransactionContextManager.exit,
      PostgresTransactionContextManager.init,
      PostgresConnectionContextManager.run,
      PostgresConnectionContextManager.enter,
      PostgresConnectionContextManager.exit,
      getconn, putconn, newCursor, setAutocommit, commitConn, rollbackConn,
      execStmt, hauto]

/-- Instantiation of C3's amended theorem at the at-rest state with a
failing statement (cursor manager) and a failing block (all three). -/
theorem scope_exit_restores_autocommit_and_releases_checked :
    ((PostgresCursorContextManager.run "SELECT 1" true true st0).1.autocommit = true ∧
     (PostgresCursorContextManager.run "SELECT 1" true true st0).1.inPool = true) ∧
    ((PostgresTransactionContextManager.run "SELECT 1" ["INSERT INTO foo VALUES ('baz')"] true false false st0).1.autocommit = true ∧
     (PostgresTransactionContextManager.run "SELECT 1" ["INSERT INTO foo VALUES ('baz')"] true false false st0).1.inPool = true) ∧
    ((PostgresConnectionContextManager.run ["INSERT INTO foo VALUES ('baz')"] true false st0).1.autocommit = true ∧
     (PostgresConnectionContextManager.run ["INSERT INTO foo VALUES ('baz')"] true false st0).1.inPool = true) :=
  scope_exit_restores_autocommit_and_releases "SELECT 1"
    ["INSERT INTO foo VALUES ('baz')"] true true st0 rfl

/-- Claim C4 is a code bug: `PostgresTransactionContextManager.__init__`
receives `get_transaction`'s statement and parameters but stores only
`self.pool` and `self.conn`, and `__enter__` only creates a cursor — it
never calls `execute`.  So the whole scope is independent of the statement
passed to `get_transaction`, and a scope with an empty managed block issues
no `exec` event at all: the statement is discarded, not executed. -/
theorem get_transaction_discards_its_statement :
    (∀ a b : List String,
      PostgresTransactionContextManager.init a
        = PostgresTransactionContextManager.init b) ∧
    (∀ (q q' : String) (stmts : List String) (bf cf rf : Bool) (s : St),
      PostgresTransactionContextManager.run q stmts bf cf rf s
        = PostgresTransactionContextManager.run q' stmts bf cf rf s) ∧
    countExec (PostgresTransactionContextManager.run
      "INSERT INTO foo VALUES ('baz')" [] false false false st0).1.trace = 0 := by
  refine ⟨fun a b => rfl, fun q q' stmts bf cf rf s => rfl, ?_⟩
  decide

/-- Claim C5 is a code bug: `Postgres.__init__` only assigns `dsn` inside
the `if url.startswith("postgres://")` branch, so handing it a structured
key=value DSN — which its own docstring advertises as supported — raises
`UnboundLocalError` on the `dsn=dsn` argument instead of using the string
as the connection string.  The URL form is indeed translated before use. -/
theorem plain_dsn_construction_raises_unbound_local :
    Postgres.init "dbname=testdb user=jdoe" 1 10
      = Except.error (PyError.unboundLocal "dsn") ∧
    Postgres.init "postgres://jdoe@localhost/testdb" 1 10
      = Except.ok ⟨1, 10, "dbname=testdb user=jdoe password=None host=localhost port=5432"⟩ :=
  ⟨rfl, rfl⟩

/-- Counterexample to claim C6 as stated: `"postgres://localhost"` has no
database name and `minconn = 5 > maxconn = 2`, yet construction raises
nothing — it proceeds to create the pool, with an empty `dbname=` in the
DSN and the bounds passed through unchecked.  No `ConfigurationError`
exists anywhere in the code. -/
theorem construction_accepts_missing_dbname_and_bad_bounds :
    Postgres.init "postgres://localhost" 5 2
      = Except.ok ⟨5, 2, "dbname= user=None password=None host=localhost port=5432"⟩ :=
  rfl

/-- Claim C6 amended: the code never raises a `ConfigurationError` — it
defines no such exception — and does not validate its inputs.  For every
`minconn > maxconn`, a URL lacking a database name still constructs the
pool (with an empty `dbname=` in the DSN and the bounds passed through
unchecked); the construction-time failures that do occur are of other
kinds: a string not starting with `postgres://` raises `UnboundLocalError`,
and a URL with a non-numeric port raises the `ValueError` from
`int(port, 10)` inside `url_to_dsn`. -/
theorem construction_never_raises_configuration_error
    (m M : Nat) (hbad : M < m) :
    Postgres.init "postgres://localhost" m M
      = Except.ok ⟨m, M, "dbname= user=None password=None host=localhost port=5432"⟩ ∧
    (∀ url : String, strStartswith url "postgres://" = false →
      Postgres.init url m M = Except.error (PyError.unboundLocal "dsn")) ∧
    Postgres.init "postgres://localhost:abc/db" m M
      = Except.error (PyError.valueError "abc") := by
  refine ⟨rfl, fun url hu => ?_, rfl⟩
  simp [Postgres.init, hu]

/-- Instantiation of C6's amended theorem at `minconn = 5 > maxconn = 2`,
with the plain DSN `"dbname=testdb"` for the `UnboundLocalError` part. -/
theorem construction_never_raises_configuration_error_checked :
    Postgres.init "postgres://localhost" 5 2
      = Except.ok ⟨5, 2, "dbname= user=None password=None host=localhost port=5432"⟩ ∧
    Postgres.init "dbname=testdb" 5 2
      = Except.error (PyError.unboundLocal "dsn") ∧
    Postgres.init "postgres://localhost:abc/db" 5 2
      = Except.error (PyError.valueError "abc") :=
  ⟨(construction_never_raises_configuration_error 5 2 (by decide)).1,
   (construction_never_raises_configuration_error 5 2 (by decide)).2.1
     "dbname=testdb" (by decide),
   (construction_never_raises_configuration_error 5 2 (by decide)).2.2⟩

/-- Claim C7: a `get_connection` scope never issues a `commit` on any path
(its exit issues none even when `rollback` raises, and the body here is the
caller's statements); when the exit-path `rollback` succeeds, the exit
unconditionally rolls back — closing any transaction the caller's
statements left open — then restores `autocommit = true`, then releases,
in exactly that order at the end of the trace. -/
theorem get_connection_rolls_back_and_never_commits
    (stmts : List String) (bodyFails rollbackFails : Bool) (s : St)
    (h : s.trace = []) :
    countCommit (PostgresConnectionContextManager.run stmts bodyFails rollbackFails s).1.trace
      = 0 ∧
    (rollbackFails = false →
      (PostgresConnectionContextManager.run stmts bodyFails rollbackFails s).1.trace
        = [Ev.getconn, Ev.setAuto false] ++ stmts.map Ev.exec
          ++ [Ev.rollback, Ev.setAuto true, Ev.putconn] ∧
      (PostgresConnectionContextManager.run stmts bodyFails rollbackFails s).1.txnOpen
        = false ∧
      (PostgresConnectionContextManager.run stmts bodyFails rollbackFails s).1.autocommit
        = true ∧
      (PostgresConnectionContextManager.run stmts bodyFails rollbackFails s).1.inPool
        = true ∧
      (PostgresConnectionContextManager.run stmts bodyFails rollbackFails s).2
        = bodyFails) := by
  cases rollbackFails <;>
    simp [PostgresConnectionContextManager.run,
      PostgresConnectionContextManager.enter,
      PostgresConnectionContextManager.exit,
      execList_trace, getconn, putconn, setAutocommit, rollbackConn,
      countCommit_append, countCommit_map_exec, countCommit, h]

/-- Instantiation of C7's theorem: two caller statements, clean block,
successful exit rollback, from the at-rest state. -/
theorem get_connection_rolls_back_and_never_commits_checked :
    countCommit (PostgresConnectionContextManager.run ["INSERT INTO foo VALUES ('baz')", "INSERT INTO foo VALUES ('buz')"] false false st0).1.trace
      = 0 ∧
    (false = false →
      (PostgresConnectionContextManager.run ["INSERT INTO foo VALUES ('baz')", "INSERT INTO foo VALUES ('buz')"] false false st0).1.trace
        = [Ev.getconn, Ev.setAuto false]
          ++ ["INSERT INTO foo VALUES ('baz')", "INSERT INTO foo VALUES ('buz')"].map Ev.exec
          ++ [Ev.rollback, Ev.setAuto true, Ev.putconn] ∧
      (PostgresConnectionContextManager.run ["INSERT INTO foo VALUES ('baz')", "INSERT INTO foo VALUES ('buz')"] false false st0).1.txnOpen
        = false ∧
      (PostgresConnectionContextManager.run ["INSERT INTO foo VALUES ('baz')", "INSERT INTO foo VALUES ('buz')"] false false st0).1.autocommit
        = true ∧
      (PostgresConnectionContextManager.run ["INSERT INTO foo VALUES ('baz')", "INSERT INTO foo VALUES ('buz')"] false false st0).1.inPool
        = true ∧
      (PostgresConnectionContextManager.run ["INSERT INTO foo VALUES ('baz')", "INSERT INTO foo VALUES ('buz')"] false false st0).2
        = false) :=
  get_connection_rolls_back_and_never_commits
    ["INSERT INTO foo VALUES ('baz')", "INSERT INTO foo VALUES ('buz')"]
    false false st0 rfl

/-- Claim C8 is a code bug: `url_to_dsn "postgres://jdoe@localhost/testdb"`
does yield `dbname=testdb`, `user=jdoe`, `host=localhost` and the default
`port=5432`, but the absent password is not left absent — `"%s" % None`
renders it as the literal placeholder `password=None` in the DSN. -/
theorem url_to_dsn_renders_missing_password_as_placeholder :
    url_to_dsn "postgres://jdoe@localhost/testdb"
      = Except.ok "dbname=testdb user=jdoe password=None host=localhost port=5432" :=
  rfl

theorem drain_active (rem : List Row) (s : St) :
    FetchallGen.drain (rem.length + 1) ⟨FetchallPhase.active rem, s⟩
      = (rem, ⟨FetchallPhase.finished, PostgresCursorContextManager.exit s⟩) := by
  induction rem generalizing s with
  | nil => simp [FetchallGen.drain, FetchallGen.next]
  | cons r rest ih =>
    have hstep :
        FetchallGen.drain ((r :: rest).length + 1)
            ⟨FetchallPhase.active (r :: rest), s⟩
          = (r :: (FetchallGen.drain (rest.length + 1) ⟨FetchallPhase.active rest, s⟩).1,
             (FetchallGen.drain (rest.length + 1) ⟨FetchallPhase.active rest, s⟩).2) := rfl
    rw [hstep, ih]

/-- Claim C9: the `fetchall` generator, iterated to exhaustion with
`rows.length + 1` `next()` calls, yields exactly the statement's result
rows in order; at that point the connection has been checked out and back
in exactly once (the scope exited when the cursor ran dry), re-iterating
the exhausted generator yields nothing more under any number of further
`next()` calls, and closing the generator mid-iteration (the other way the
scope can end) also returns the connection. -/
theorem fetchall_single_pass_in_order_then_release
    (q : String) (rows : List Row) (s : St) (h : s.trace = []) :
    (FetchallGen.drain (rows.length + 1) (Postgres.fetchall q rows s)).1 = rows ∧
    (FetchallGen.drain (rows.length + 1) (Postgres.fetchall q rows s)).2.phase
      = FetchallPhase.finished ∧
    (FetchallGen.drain (rows.length + 1) (Postgres.fetchall q rows s)).2.st.trace
      = [Ev.getconn, Ev.newCursor, Ev.exec q, Ev.putconn] ∧
    (FetchallGen.drain (rows.length + 1) (Postgres.fetchall q rows s)).2.st.inPool
      = true ∧
    (∀ fuel : Nat,
      FetchallGen.drain fuel (FetchallGen.drain (rows.length + 1) (Postgres.fetchall q rows s)).2
        = ([], (FetchallGen.drain (rows.length + 1) (Postgres.fetchall q rows s)).2)) ∧
    (∀ (rem : List Row) (s' : St),
      (FetchallGen.close ⟨FetchallPhase.active rem, s'⟩).st.trace
        = s'.trace ++ [Ev.putconn] ∧
      (FetchallGen.close ⟨FetchallPhase.active rem, s'⟩).st.inPool = true) := by
  have hmain :
      FetchallGen.drain (rows.length + 1) (Postgres.fetchall q rows s)
        = (rows, ⟨FetchallPhase.finished,
            { inPool := true, autocommit := s.autocommit,
              txnOpen := if s.autocommit then s.txnOpen else true,
              trace := [Ev.getconn, Ev.newCursor, Ev.exec q, Ev.putconn] }⟩) := by
    cases rows with
    | nil =>
      simp [FetchallGen.drain, FetchallGen.next, Postgres.fetchall,
        PostgresCursorContextManager.enter, PostgresCursorContextManager.exit,
        getconn, newCursor, execStmt, putconn, h]
    | cons r rest =>
      have hstep :
          FetchallGen.drain ((r :: rest).length + 1)
              (Postgres.fetchall q (r :: rest) s)
            = (r :: (FetchallGen.drain (rest.length + 1)
                  ⟨FetchallPhase.active rest, execStmt q (newCursor (getconn s))⟩).1,
               (FetchallGen.drain (rest.length + 1)
                  ⟨FetchallPhase.active rest, execStmt q (newCursor (getconn s))⟩).2) := rfl
      rw [hstep, drain_active]
      simp [PostgresCursorContextManager.exit, getconn, newCursor, execStmt,
        putconn, h]
  refine ⟨by rw [hmain], by rw [hmain], by rw [hmain], by rw [hmain],
    fun fuel => ?_, fun rem s' => ?_⟩
  · rw [hmain]
    cases fuel <;> simp [FetchallGen.drain, FetchallGen.next]
  · exact ⟨by simp [FetchallGen.close, PostgresCursorContextManager.exit, putconn],
      by simp [FetchallGen.close, PostgresCursorContextManager.exit, putconn]⟩

/-- Instantiation of C9's theorem: two result rows from the at-rest state. -/
theorem fetchall_single_pass_in_order_then_release_checked :
    (FetchallGen.drain (([[("bar", "baz")], [("bar", "buz")]] : List Row).length + 1)
        (Postgres.fetchall "SELECT * FROM foo ORDER BY bar" [[("bar", "baz")], [("bar", "buz")]] st0)).1
      = [[("bar", "baz")], [("bar", "buz")]] ∧
    (FetchallGen.drain (([[("bar", "baz")], [("bar", "buz")]] : List Row).length + 1)
        (Postgres.fetchall "SELECT * FROM foo ORDER BY bar" [[("bar", "baz")], [("bar", "buz")]] st0)).2.phase
      = FetchallPhase.finished ∧
    (FetchallGen.drain (([[("bar", "baz")], [("bar", "buz")]] : List Row).length + 1)
        (Postgres.fetchall "SELECT * FROM foo ORDER BY bar" [[("bar", "baz")], [("bar", "buz")]] st0)).2.st.trace
      = [Ev.getconn, Ev.newCursor, Ev.exec "SELECT * FROM foo ORDER BY bar", Ev.putconn] ∧
    (FetchallGen.drain (([[("bar", "baz")], [("bar", "buz")]] : List Row).length + 1)
        (Postgres.fetchall "SELECT * FROM foo ORDER BY bar" [[("bar", "baz")], [("bar", "buz")]] st0)).2.st.inPool
      = true ∧
    (∀ fuel : Nat,
      FetchallGen.drain fuel
          (FetchallGen.drain (([[("bar", "baz")], [("bar", "buz")]] : List Row).length + 1)
            (Postgres.fetchall "SELECT * FROM foo ORDER BY bar" [[("bar", "baz")], [("bar", "buz")]] st0)).2
        = ([], (FetchallGen.drain (([[("bar", "baz")], [("bar", "buz")]] : List Row).length + 1)
            (Postgres.fetchall "SELECT * FROM foo ORDER BY bar" [[("bar", "baz")], [("bar", "buz")]] st0)).2)) ∧
    (∀ (rem : List Row) (s' : St),
      (FetchallGen.close ⟨FetchallPhase.active rem, s'⟩).st.trace
        = s'.trace ++ [Ev.putconn] ∧
      (FetchallGen.close ⟨FetchallPhase.active rem, s'⟩).st.inPool = true) :=
  fetchall_single_pass_in_order_then_release "SELECT * FROM foo ORDER BY bar"
    [[("bar", "baz")], [("bar", "buz")]] st0 rfl

/-- Claim C10: `PostgresConnection.cursor` uses a caller-supplied
`cursor_factory` keyword unchanged, and applies the connection's
row-mapping default `RealDictCursor` only when the caller supplies none —
the per-connection default is overridable per cursor. -/
theorem cursor_factory_caller_override (kw : List (String × CursorFactory)) :
    (∀ f : CursorFactory, List.lookup "cursor_factory" kw = some f →
      PostgresConnection.cursor kw = f) ∧
    (List.lookup "cursor_factory" kw = none →
      PostgresConnection.cursor kw = CursorFactory.RealDictCursor) := by
  constructor
  · intro f hf
    simp [PostgresConnection.cursor, psycopg2CursorBase, hf]
  · intro hnone
    simp [PostgresConnection.cursor, psycopg2CursorBase, hnone,
      lookup_append_right kw "cursor_factory" CursorFactory.RealDictCursor hnone]

/-- Instantiation of C10's theorem: an explicit caller factory is used
unchanged; with no keyword the `RealDictCursor` default applies. -/
theorem cursor_factory_caller_override_checked :
    PostgresConnection.cursor
        [("cursor_factory", CursorFactory.factoryNamed "LoggingCursor")]
      = CursorFactory.factoryNamed "LoggingCursor" ∧
    PostgresConnection.cursor [] = CursorFactory.RealDictCursor :=
  ⟨(cursor_factory_caller_override
      [("cursor_factory", CursorFactory.factoryNamed "LoggingCursor")]).1
      (CursorFactory.factoryNamed "LoggingCursor") (by decide),
   (cursor_factory_caller_override []).2 rfl⟩
